import Mathlib

/-!
Verification of the double-entry accounting engine with FIFO inventory
costing of the RSM retail point-of-sale application.

The development is a shallow embedding of the core subsystem:
`src/models/accounting_engine.py` (journal engine, chart-of-accounts
balance propagation, transaction processors) and the inventory/journal
methods of `src/models/database.py` (inventory lots, FIFO costing,
sales, returns, write-offs).

Modelling conventions:
* monetary amounts are rationals (`ℚ`); the source stores REAL columns and
  the design mandates exact decimal arithmetic with a fixed 0.01 epsilon
  for balance checks;
* quantities are integers (`Int`), ids are `Nat`, acquisition dates are
  `Nat` keys (ISO date strings compare lexicographically, i.e. like their
  numeric keys);
* each SQL table is a list of records kept in rowid (insertion) order;
  `AUTOINCREMENT` ids are explicit `next…` counters;
* `SELECT … ORDER BY k` is modelled as a stable sort by `k` of the rows in
  rowid order; `UPDATE … WHERE p` maps a conditional update over all rows;
  a Python method that raises is modelled with `Except`, one that returns
  `None` on failure with `Option`, and a raise/rollback leaves the caller
  with the pre-call state;
* the `cash_transaction_types` / `non_cash_transaction_types` join tables
  are inlined: a transaction row stores the type name directly, and the
  fixed type lists inserted by `create_tables` are embedded as constants.
-/

namespace RSM

/-- Row of the `accounts` table (chart of accounts). -/
structure Account where
  account_code : String
  account_name : String
  account_type : String
  balance : ℚ
  deriving Repr, DecidableEq

/-- Input line for `create_journal_entry` (the Python dict with keys
`account`, `debit`, `credit`, `description`; missing amounts default to 0
at the call sites we embed). Also the row shape of `journal_entry_lines`. -/
structure EntryLine where
  account : String
  debit : ℚ
  credit : ℚ
  description : String
  deriving Repr, DecidableEq

/-- Row of the `journal_entries` table, together with its owned lines. -/
structure JournalEntry where
  id : Nat
  journal_type : String
  reference_no : String
  description : String
  total_debit : ℚ
  total_credit : ℚ
  lines : List EntryLine
  deriving Repr, DecidableEq

/-- Row of the `inventory_lots` table. -/
structure Lot where
  id : Nat
  product_id : Nat
  purchase_id : Option Nat
  quantity_purchased : Int
  quantity_remaining : Int
  cost_per_unit : ℚ
  date_acquired : Nat
  deriving Repr, DecidableEq

/-- Row of the `products` table (the columns the core consults). -/
structure Product where
  id : Nat
  name : String
  cost_price : ℚ
  selling_price : ℚ
  quantity : Int
  deriving Repr, DecidableEq

/-- Row of the `sales` table (the columns the core consults);
`status` defaults to `"completed"` in the schema. -/
structure Sale where
  id : Nat
  customer_id : Option Nat
  total_amount : ℚ
  discount : ℚ
  tax : ℚ
  payment_type : String
  status : String
  reference_no : String
  deriving Repr, DecidableEq

/-- Row of the `sale_items` table. -/
structure SaleItem where
  sale_id : Nat
  product_id : Nat
  quantity : Int
  unit_price : ℚ
  total_price : ℚ
  deriving Repr, DecidableEq

/-- Row of the `customers` table (the columns the core consults). -/
structure Customer where
  id : Nat
  balance : ℚ
  deriving Repr, DecidableEq

/-- Row of the `cash_transactions` table, with the
`cash_transaction_types` join inlined as `type_name`. -/
structure CashTx where
  type_name : String
  amount : ℚ
  description : String
  deriving Repr, DecidableEq

/-- Row of the `non_cash_transactions` table, with the type join inlined. -/
structure NonCashTx where
  type_name : String
  amount : ℚ
  description : String
  customer_id : Option Nat
  deriving Repr, DecidableEq

/-- Row of the `sales_returns` table. -/
structure SalesReturn where
  id : Nat
  sale_id : Nat
  product_id : Nat
  quantity : Int
  unit_price : ℚ
  total_price : ℚ
  reason : String
  deriving Repr, DecidableEq

/-- The persistent store: one list per table, in rowid order, plus the
`AUTOINCREMENT` counters. -/
structure DBState where
  accounts : List Account
  journal_entries : List JournalEntry
  next_journal_id : Nat
  lots : List Lot
  next_lot_id : Nat
  products : List Product
  sales : List Sale
  next_sale_id : Nat
  sale_items : List SaleItem
  customers : List Customer
  cash_transactions : List CashTx
  non_cash_transactions : List NonCashTx
  sales_returns : List SalesReturn
  next_return_id : Nat
  deriving Repr, DecidableEq

/-- Cash-in type names inserted by `Database.create_tables`. -/
def cashInTypes : List String :=
  ["Cash Sales", "Collections", "Customer Payment", "Investment", "Unearned Sales"]

/-- Non-cash-in type names inserted by `Database.create_tables`. -/
def nonCashInTypes : List String :=
  ["Credit Sales", "Returns"]

/-- The default chart of accounts inserted by `Database.create_tables`
(the engine itself skips chart initialization: "accounts are managed
externally"). All balances start at 0. -/
def defaultAccounts : List Account :=
  [⟨"1001", "Cash", "asset", 0⟩,
   ⟨"1002", "Accounts Receivable", "asset", 0⟩,
   ⟨"1003", "Inventory", "asset", 0⟩,
   ⟨"1004", "Equipment", "asset", 0⟩,
   ⟨"1005", "Accumulated Depreciation - Equipment", "asset", 0⟩,
   ⟨"2001", "Accounts Payable", "liability", 0⟩,
   ⟨"2002", "Unearned Revenue", "liability", 0⟩,
   ⟨"3001", "Owner Capital", "equity", 0⟩,
   ⟨"3002", "Owner Drawings", "equity", 0⟩,
   ⟨"3003", "Retained Earnings", "equity", 0⟩,
   ⟨"4001", "Sales Revenue", "revenue", 0⟩,
   ⟨"4002", "Service Revenue", "revenue", 0⟩,
   ⟨"4003", "Sales Returns", "revenue", 0⟩,
   ⟨"5001", "Cost of Goods Sold", "expense", 0⟩,
   ⟨"5002", "Operating Expenses", "expense", 0⟩,
   ⟨"5003", "Depreciation Expense", "expense", 0⟩,
   ⟨"6200", "Utilities Expense", "expense", 0⟩,
   ⟨"6600", "Bad Debt Expense", "expense", 0⟩]

/-- First account with the given name
(`SELECT … FROM accounts WHERE account_name = ?` + `fetchone`). -/
def lookupAccount (accounts : List Account) (account_name : String) : Option Account :=
  accounts.find? (fun a => a.account_name == account_name)

/-- AccountingEngine.update_account_balance: look up the account type;
assets and expenses are debit-normal, the rest credit-normal; add the
signed delta to every row carrying the name. An unknown account name only
logs a warning and mutates nothing. -/
def update_account_balance (accounts : List Account) (account_name : String)
    (debit_amount credit_amount : ℚ) : List Account :=
  match lookupAccount accounts account_name with
  | none => accounts
  | some acct =>
      let balance_change :=
        if acct.account_type = "asset" ∨ acct.account_type = "expense" then
          debit_amount - credit_amount
        else
          credit_amount - debit_amount
      accounts.map (fun a =>
        if a.account_name = account_name then
          { a with balance := a.balance + balance_change }
        else a)

/-- AccountingEngine.create_journal_entry: reject when
`abs (total_debits - total_credits) > 0.01` (raised before any write);
otherwise persist the header with the computed totals, persist each line,
and update each line's account balance. Returns the new journal entry id. -/
def create_journal_entry (st : DBState) (journal_type reference_no description : String)
    (entries : List EntryLine) : Except String (DBState × Nat) :=
  let total_debits := (entries.map EntryLine.debit).sum
  let total_credits := (entries.map EntryLine.credit).sum
  if |total_debits - total_credits| > 1 / 100 then
    Except.error "Journal entry not balanced"
  else
    let jid := st.next_journal_id
    let entry : JournalEntry :=
      ⟨jid, journal_type, reference_no, description, total_debits, total_credits, entries⟩
    Except.ok
      ({ st with
          journal_entries := st.journal_entries ++ [entry]
          next_journal_id := jid + 1
          accounts := entries.foldl
            (fun accs e => update_account_balance accs e.account e.debit e.credit)
            st.accounts },
       jid)

/-- AccountingEngine.get_account_balance: stored balance, or 0 when the
account is unknown. -/
def get_account_balance (st : DBState) (account_name : String) : ℚ :=
  match lookupAccount st.accounts account_name with
  | some a => a.balance
  | none => 0

/-- Every journal line of every persisted entry, in posting order. -/
def all_journal_lines (st : DBState) : List EntryLine :=
  (st.journal_entries.map JournalEntry.lines).flatten

/-- AccountingEngine.validate_trial_balance: total debits equal total
credits across all journal entry lines, within the 0.01 tolerance. -/
def validate_trial_balance (st : DBState) : Bool :=
  let total_debits := ((all_journal_lines st).map EntryLine.debit).sum
  let total_credits := ((all_journal_lines st).map EntryLine.credit).sum
  decide (|total_debits - total_credits| < 1 / 100)

/-- Database.get_product_by_id (`WHERE p.id = ?` + `fetchone`). -/
def get_product_by_id (st : DBState) (product_id : Nat) : Option Product :=
  st.products.find? (fun p => p.id == product_id)

/-- Stable insertion of a lot into a list sorted by acquisition date:
the inserted lot goes before the first lot with a later-or-equal date. -/
def insertByDate (a : Lot) : List Lot → List Lot
  | [] => [a]
  | b :: l =>
      if a.date_acquired ≤ b.date_acquired then a :: b :: l
      else b :: insertByDate a l

/-- Stable sort of lots by acquisition date
(the embedding of `ORDER BY date_acquired ASC` over rows in rowid order). -/
def sortLotsByDate : List Lot → List Lot
  | [] => []
  | a :: l => insertByDate a (sortLotsByDate l)

/-- Database.get_inventory_lots: lots of the product with
`quantity_remaining > 0`, ordered by `date_acquired` ascending. -/
def get_inventory_lots (st : DBState) (product_id : Nat) : List Lot :=
  sortLotsByDate
    (st.lots.filter (fun l =>
      l.product_id == product_id && decide (0 < l.quantity_remaining)))

/-- One entry of the consumption plan returned by `get_fifo_cost`
(the Python dict with `lot_id`, `quantity_consumed`, `cost_per_unit`,
`total_cost`). -/
structure LotConsumption where
  lot_id : Nat
  quantity_consumed : Int
  cost_per_unit : ℚ
  total_cost : ℚ
  deriving Repr, DecidableEq

/-- The greedy loop of Database.get_fifo_cost: walk the lots in order,
breaking once nothing is needed, consuming
`min remaining_needed quantity_remaining` from each lot. Returns the
accumulated cost, the consumption plan and the final remaining need. -/
def fifoWalk : List Lot → Int → ℚ × List LotConsumption × Int
  | [], remaining_needed => (0, [], remaining_needed)
  | lot :: rest, remaining_needed =>
      if remaining_needed ≤ 0 then (0, [], remaining_needed)
      else
        let consume_qty := min remaining_needed lot.quantity_remaining
        let cost := (consume_qty : ℚ) * lot.cost_per_unit
        let r := fifoWalk rest (remaining_needed - consume_qty)
        (cost + r.1, ⟨lot.id, consume_qty, lot.cost_per_unit, cost⟩ :: r.2.1, r.2.2)

/-- Database.get_fifo_cost: FIFO cost quote. Returns `none` (the Python
`(None, None)` sentinel) when the walk leaves a positive remaining need,
otherwise the total cost and the consumption plan. The quote only reads
the lot table — it mutates nothing. -/
def get_fifo_cost (st : DBState) (product_id : Nat) (quantity_needed : Int) :
    Option (ℚ × List LotConsumption) :=
  let r := fifoWalk (get_inventory_lots st product_id) quantity_needed
  if 0 < r.2.2 then none else some (r.1, r.2.1)

/-- Database.add_inventory_lot: insert a lot with
`quantity_remaining = quantity` and add the quantity to the owning
product's on-hand quantity. Returns the new lot id. -/
def add_inventory_lot (st : DBState) (product_id : Nat) (purchase_id : Option Nat)
    (quantity : Int) (cost_per_unit : ℚ) (date_acquired : Nat) : DBState × Nat :=
  let lot : Lot :=
    ⟨st.next_lot_id, product_id, purchase_id, quantity, quantity, cost_per_unit, date_acquired⟩
  ({ st with
      lots := st.lots ++ [lot]
      next_lot_id := st.next_lot_id + 1
      products := st.products.map (fun p =>
        if p.id = product_id then { p with quantity := p.quantity + quantity } else p) },
   st.next_lot_id)

/-- Database.consume_inventory_lot: fetch the lot's product id; run
`UPDATE inventory_lots SET quantity_remaining = quantity_remaining - ?
WHERE id = ? AND quantity_remaining >= ?`; when that update hit a row,
also decrement the owning product's quantity. The returned flag is the
row count of the last statement executed. -/
def consume_inventory_lot (st : DBState) (lot_id : Nat) (quantity_consumed : Int) :
    DBState × Bool :=
  match st.lots.find? (fun l => l.id == lot_id) with
  | none => (st, false)
  | some lot =>
      let hit := st.lots.any (fun l =>
        l.id == lot_id && decide (quantity_consumed ≤ l.quantity_remaining))
      let lots' := st.lots.map (fun l =>
        if l.id = lot_id ∧ quantity_consumed ≤ l.quantity_remaining then
          { l with quantity_remaining := l.quantity_remaining - quantity_consumed }
        else l)
      if hit then
        ({ st with
            lots := lots'
            products := st.products.map (fun p =>
              if p.id = lot.product_id then
                { p with quantity := p.quantity - quantity_consumed }
              else p) },
         st.products.any (fun p => p.id == lot.product_id))
      else
        ({ st with lots := lots' }, false)

/-- Database.update_customer_balance: add `amount` to the customer's
balance; a `None` customer id (SQL `WHERE id = NULL`) matches no row. -/
def update_customer_balance (st : DBState) (customer_id : Option Nat) (amount : ℚ) : DBState :=
  match customer_id with
  | none => st
  | some cid =>
      { st with
          customers := st.customers.map (fun c =>
            if c.id = cid then { c with balance := c.balance + amount } else c) }

/-- Database.add_cash_in: append a cash transaction when the type name is
a registered cash-in type. -/
def add_cash_in (st : DBState) (type_name : String) (amount : ℚ)
    (description : String) : DBState :=
  if cashInTypes.contains type_name then
    { st with cash_transactions := st.cash_transactions ++ [⟨type_name, amount, description⟩] }
  else st

/-- Database.add_non_cash_in: append a non-cash transaction when the type
name is a registered non-cash-in type; a credit sale with a customer also
raises the customer's balance by the amount. -/
def add_non_cash_in (st : DBState) (type_name : String) (amount : ℚ)
    (description : String) (customer_id : Option Nat) : DBState :=
  if nonCashInTypes.contains type_name then
    let st1 :=
      { st with
          non_cash_transactions :=
            st.non_cash_transactions ++ [⟨type_name, amount, description, customer_id⟩] }
    if customer_id.isSome ∧ type_name = "Credit Sales" then
      update_customer_balance st1 customer_id amount
    else st1
  else st

/-- One line item handed to `create_sale` / `process_sales_transaction`
(the Python dict with `product_id`, `quantity`, `unit_price`). -/
structure SaleInput where
  product_id : Nat
  quantity : Int
  unit_price : ℚ
  deriving Repr, DecidableEq

/-- Database.create_sale: compute the total, quote FIFO cost for every
item and return `None` (rolling back) as soon as any quote reports
insufficient stock; otherwise insert the sale record (status defaults to
`"completed"`), its sale items, and the cash or credit transaction.
Lot consumption is deliberately left to the accounting engine. -/
def create_sale (st : DBState) (items : List SaleInput) (customer_id : Option Nat)
    (payment_type : String) (discount tax : ℚ) (reference_no : String) :
    Option (DBState × Nat) :=
  let total_amount :=
    ((items.map (fun i => (i.quantity : ℚ) * i.unit_price)).sum) - discount + tax
  if items.any (fun i => (get_fifo_cost st i.product_id i.quantity).isNone) then
    none
  else
    let sale_id := st.next_sale_id
    let st1 :=
      { st with
          sales := st.sales ++
            [⟨sale_id, customer_id, total_amount, discount, tax, payment_type,
              "completed", reference_no⟩]
          next_sale_id := sale_id + 1
          sale_items := st.sale_items ++ items.map (fun i =>
            ⟨sale_id, i.product_id, i.quantity, i.unit_price,
             (i.quantity : ℚ) * i.unit_price⟩) }
    let st2 :=
      if payment_type = "cash" then
        add_cash_in st1 "Cash Sales" total_amount ("Sale #" ++ toString sale_id)
      else
        add_non_cash_in st1 "Credit Sales" total_amount
          ("Credit Sale #" ++ toString sale_id) customer_id
    some (st2, sale_id)

/-- The per-item loop of AccountingEngine.process_sales_transaction:
for each item with a known product, quote FIFO cost; on success commit
every entry of the consumption plan and add the quote to the accumulated
cost of goods sold; on an insufficient-stock quote fall back to
`cost_price * quantity` without touching any lot. -/
def processSaleItems : DBState → List SaleInput → DBState × ℚ
  | st, [] => (st, 0)
  | st, item :: rest =>
      match get_product_by_id st item.product_id with
      | none => processSaleItems st rest
      | some product =>
          match get_fifo_cost st item.product_id item.quantity with
          | some (fifo_cost, lots_consumed) =>
              let st' := lots_consumed.foldl
                (fun s lc => (consume_inventory_lot s lc.lot_id lc.quantity_consumed).1) st
              let r := processSaleItems st' rest
              (r.1, fifo_cost + r.2)
          | none =>
              let r := processSaleItems st rest
              (r.1, product.cost_price * (item.quantity : ℚ) + r.2)

/-- AccountingEngine.process_sales_transaction: accumulate FIFO cost of
goods sold over the items (committing lot consumption as it goes), then
post the four-line sales entry: Dr Cash or Accounts Receivable / Cr Sales
Revenue for the sale amount, Dr Cost of Goods Sold / Cr Inventory for the
FIFO cost. -/
def process_sales_transaction (st : DBState) (sale_id : Nat) (sale_items : List SaleInput)
    (total_amount : ℚ) (payment_type : String) : Except String (DBState × Nat) :=
  let r := processSaleItems st sale_items
  let total_cogs := r.2
  let cash_account := if payment_type = "cash" then "Cash" else "Accounts Receivable"
  let entries : List EntryLine :=
    [⟨cash_account, total_amount, 0, "Sale of goods"⟩,
     ⟨"Sales Revenue", 0, total_amount, "Revenue from sale #" ++ toString sale_id⟩,
     ⟨"Cost of Goods Sold", total_cogs, 0, "COGS for sale #" ++ toString sale_id⟩,
     ⟨"Inventory", 0, total_cogs, "Inventory reduction for sale #" ++ toString sale_id⟩]
  create_journal_entry r.1 "sales" ("SALE-" ++ toString sale_id)
    ("Sale #" ++ toString sale_id) entries

/-- The checkout flow of main.py: create the sale (which quotes FIFO cost
for every item against the current lots and aborts on any
insufficient-stock quote), and only on success run the accounting
processor; a journal failure rolls that step back. -/
def checkout_sale (st : DBState) (items : List SaleInput) (payment_type : String)
    (reference_no : String) : DBState :=
  match create_sale st items none payment_type 0 0 reference_no with
  | none => st
  | some (st1, sale_id) =>
      let cart_total := (items.map (fun i => (i.quantity : ℚ) * i.unit_price)).sum
      match process_sales_transaction st1 sale_id items cart_total payment_type with
      | Except.ok (st2, _) => st2
      | Except.error _ => st1

/-- AccountingEngine.process_inventory_purchase: post the two-line entry
Dr Inventory / Cr (Owner Capital for beginning inventory, else Cash or
Accounts Payable by payment type). -/
def process_inventory_purchase (st : DBState) (purchase_id : String) (total_amount : ℚ)
    (payment_type : String) (is_beginning_inventory : Bool) :
    Except String (DBState × Nat) :=
  let reference_no :=
    if is_beginning_inventory then "BEG-" ++ purchase_id else "PUR-" ++ purchase_id
  let credit_account :=
    if is_beginning_inventory then "Owner Capital"
    else if payment_type = "cash" then "Cash" else "Accounts Payable"
  let journal_type :=
    if is_beginning_inventory then "general"
    else if payment_type = "credit" then "ap" else "cash_disbursement"
  let description :=
    if is_beginning_inventory then "Beginning Inventory #" ++ purchase_id
    else "Inventory Purchase #" ++ purchase_id
  let entries : List EntryLine :=
    [⟨"Inventory", total_amount, 0, description⟩,
     ⟨credit_account, 0, total_amount, "Payment for " ++ description⟩]
  create_journal_entry st journal_type reference_no description entries

/-- Commit an `Except`-returning step against a base state: an error is a
rollback, leaving the base state in place. -/
def commitOr (st : DBState) (r : Except String (DBState × Nat)) : DBState :=
  match r with
  | Except.ok (st', _) => st'
  | Except.error _ => st

/-- Database.add_sales_return: insert the return row, increment the
product's on-hand quantity at the returned quantity, and post the
four-line entry Dr Sales Returns (selling price) and Dr Inventory (cost)
/ Cr Cost of Goods Sold (cost) and Cr Cash (refund). The inventory lot
table is never touched. -/
def add_sales_return (st : DBState) (sale_id product_id : Nat) (quantity : Int)
    (unit_price : ℚ) (reason : String) : Except String (DBState × Nat) :=
  match get_product_by_id st product_id with
  | none => Except.error "Product not found"
  | some product =>
      let total_selling := (quantity : ℚ) * unit_price
      let total_cost := (quantity : ℚ) * product.cost_price
      let rid := st.next_return_id
      let st1 :=
        { st with
            sales_returns := st.sales_returns ++
              [⟨rid, sale_id, product_id, quantity, unit_price, total_selling, reason⟩]
            next_return_id := rid + 1
            products := st.products.map (fun p =>
              if p.id = product_id then { p with quantity := p.quantity + quantity } else p) }
      let entries : List EntryLine :=
        [⟨"Sales Returns", total_selling, 0, "Sales Return - " ++ reason⟩,
         ⟨"Inventory", total_cost, 0, "Inventory restored - " ++ reason⟩,
         ⟨"Cost of Goods Sold", 0, total_cost, "COGS reversal - " ++ reason⟩,
         ⟨"Cash", 0, total_selling, "Cash refund - " ++ reason⟩]
      match create_journal_entry st1 "general" ("SR-" ++ toString rid)
          ("Sales Return - " ++ reason) entries with
      | Except.ok (st2, _) => Except.ok (st2, rid)
      | Except.error e => Except.error e

/-- ASCII lowering of a string, as SQLite `LIKE` folds case. -/
def lowerChars (s : String) : List Char :=
  s.data.map Char.toLower

/-- Whether the first list is a prefix of the second. -/
def startsWithSeq : List Char → List Char → Bool
  | [], _ => true
  | _ :: _, [] => false
  | a :: xs, b :: ys => a == b && startsWithSeq xs ys

/-- Whether the needle occurs contiguously in the haystack. -/
def containsSeq (needle : List Char) : List Char → Bool
  | [] => needle.isEmpty
  | b :: t => startsWithSeq needle (b :: t) || containsSeq needle t

/-- The `description LIKE '%sale #' || s.id || '%'` predicate of
Database.get_credit_sales (SQLite LIKE is case-insensitive on ASCII). -/
def likeSaleRef (description : String) (sale_id : Nat) : Bool :=
  containsSeq (lowerChars ("sale #" ++ toString sale_id)) (lowerChars description)

/-- Stored balance of a customer, or 0 when unknown
(the `COALESCE(c.balance, 0)` of the LEFT JOIN). -/
def customer_balance (st : DBState) (customer_id : Nat) : ℚ :=
  match st.customers.find? (fun c => c.id == customer_id) with
  | some c => c.balance
  | none => 0

/-- Sum of 'Customer Payment' cash transactions whose description
references the sale, as matched by the LIKE pattern. -/
def customer_payments_for_sale (st : DBState) (sale_id : Nat) : ℚ :=
  ((st.cash_transactions.filter (fun t =>
      t.type_name == "Customer Payment" && likeSaleRef t.description sale_id)).map
    CashTx.amount).sum

/-- Database.get_credit_sales (no customer filter): completed credit
sales with an outstanding balance — for walk-in sales the amount less
matching customer payments must be positive, for registered customers the
stored customer balance must be positive. -/
def get_credit_sales (st : DBState) : List Sale :=
  st.sales.filter (fun s =>
    s.payment_type == "credit" && s.status == "completed" &&
      (match s.customer_id with
       | none => decide (customer_payments_for_sale st s.id < s.total_amount)
       | some cid => decide (0 < customer_balance st cid)))

/-- Database.record_bad_debt_write_off: require the sale to exist as a
completed credit sale, the amount to not exceed the sale amount and to be
positive; then record the cash transaction, reduce the customer balance,
and mark the sale `written_off`. Any violation raises and rolls back. -/
def record_bad_debt_write_off (st : DBState) (customer_id : Option Nat) (sale_id : Nat)
    (amount : ℚ) (description : String) : Except String DBState :=
  match st.sales.find? (fun s =>
      s.id == sale_id && s.payment_type == "credit" && s.status == "completed") with
  | none => Except.error "Sale not found or not a valid credit sale"
  | some sale =>
      if amount > sale.total_amount then
        Except.error "Write-off amount exceeds sale amount"
      else if amount ≤ 0 then
        Except.error "Write-off amount must be greater than zero"
      else
        let st1 :=
          { st with
              cash_transactions := st.cash_transactions ++
                [⟨"Bad Debt Write-off", amount,
                  if description = "" then
                    "Bad debt write-off for sale #" ++ toString sale_id
                  else description⟩] }
        let st2 := update_customer_balance st1 customer_id (-amount)
        Except.ok
          { st2 with
              sales := st2.sales.map (fun s =>
                if s.id = sale_id then { s with status := "written_off" } else s) }

/-- A fresh store: the default chart of accounts from
`Database.create_tables`, everything else empty. -/
def emptyState : DBState :=
  ⟨defaultAccounts, [], 1, [], 1, [], [], 1, [], [], [], [], [], 1⟩

/-- The FIFO example store: one product with lots
(qty 5, cost 10, day 1) and (qty 3, cost 12, day 2). -/
def fifoExampleState : DBState :=
  { emptyState with
      products := [⟨1, "Widget", 10, 15, 8⟩]
      lots := [⟨1, 1, none, 5, 5, 10, 1⟩, ⟨2, 1, none, 3, 3, 12, 2⟩]
      next_lot_id := 3 }

/-- Store after posting Dr Cash 100 / Cr Sales Revenue 100 through the
journal engine over the default chart. -/
def debitCreditExampleState : DBState :=
  commitOr emptyState
    (create_journal_entry emptyState "sales" "T-1" "Cash sale"
      [⟨"Cash", 100, 0, "cash in"⟩, ⟨"Sales Revenue", 0, 100, "revenue"⟩])

/-- End-to-end scenario, step 0: one product with cost 10, selling price
15 and zero stock, over the initialized chart of accounts. -/
def scenarioSt0 : DBState :=
  { emptyState with products := [⟨1, "Product", 10, 15, 0⟩] }

/-- End-to-end scenario after recording the beginning-inventory lot of
20 units at cost 10. -/
def scenarioStLot : DBState :=
  (add_inventory_lot scenarioSt0 1 none 20 10 1).1

/-- End-to-end scenario after posting the beginning-inventory journal
entry for the 200 contribution. -/
def scenarioStBeg : DBState :=
  commitOr scenarioStLot (process_inventory_purchase scenarioStLot "INV-1" 200 "cash" true)

/-- End-to-end scenario after selling 5 units for cash at 15 each through
the checkout flow. -/
def scenarioStSold : DBState :=
  checkout_sale scenarioStBeg [⟨1, 5, 15⟩] "cash" "REF-1"

/-- Witness store for the lot-listing order: product 1 has two active
lots acquired on the same day (ids 1 and 2), an exhausted lot with an
earlier date, and product 2 has an unrelated lot. -/
def witnessLotsState : DBState :=
  { emptyState with
      lots := [⟨1, 1, none, 5, 5, 10, 2⟩, ⟨2, 1, none, 3, 3, 12, 2⟩,
               ⟨3, 1, none, 4, 0, 9, 1⟩, ⟨4, 2, none, 2, 2, 8, 1⟩]
      next_lot_id := 5 }

/-- Witness store for lot consumption: one product owning one lot with 3
of 5 units remaining. -/
def witnessConsumeState : DBState :=
  { emptyState with
      products := [⟨1, "Widget", 10, 15, 3⟩]
      lots := [⟨1, 1, none, 5, 3, 10, 1⟩]
      next_lot_id := 2 }

/-- Witness store for the bad-debt write-off: customer 1 owes 100 on the
completed credit sale 7. -/
def witnessSaleState : DBState :=
  { emptyState with
      sales := [⟨7, some 1, 100, 0, 0, "credit", "completed", "S-7"⟩]
      next_sale_id := 8
      customers := [⟨1, 100⟩] }

/-! Helper lemmas about the stable date sort and the FIFO walk. -/

theorem insertByDate_perm (a : Lot) (l : List Lot) :
    (insertByDate a l).Perm (a :: l) := by
  induction l with
  | nil => simp [insertByDate]
  | cons b t ih =>
      by_cases h : a.date_acquired ≤ b.date_acquired
      · simp [insertByDate, h]
      · simp only [insertByDate, if_neg h]
        exact (ih.cons b).trans (List.Perm.swap a b t)

theorem sortLotsByDate_perm (l : List Lot) :
    (sortLotsByDate l).Perm l := by
  induction l with
  | nil => simp [sortLotsByDate]
  | cons a t ih =>
      exact (insertByDate_perm a (sortLotsByDate t)).trans (ih.cons a)

theorem mem_sortLotsByDate (x : Lot) (l : List Lot) :
    x ∈ sortLotsByDate l ↔ x ∈ l :=
  (sortLotsByDate_perm l).mem_iff

theorem get_inventory_lots_mem (st : DBState) (product_id : Nat) (l : Lot) :
    l ∈ get_inventory_lots st product_id ↔
      l ∈ st.lots ∧ l.product_id = product_id ∧ 0 < l.quantity_remaining := by
  unfold get_inventory_lots
  rw [mem_sortLotsByDate, List.mem_filter]
  simp

theorem get_inventory_lots_pos (st : DBState) (product_id : Nat) :
    ∀ l ∈ get_inventory_lots st product_id, 0 < l.quantity_remaining := by
  intro l hl
  exact ((get_inventory_lots_mem st product_id l).1 hl).2.2

theorem fifoWalk_rem_pos_iff (lots : List Lot) (q : Int)
    (h : ∀ l ∈ lots, 0 ≤ l.quantity_remaining) :
    0 < (fifoWalk lots q).2.2 ↔ (lots.map Lot.quantity_remaining).sum < q := by
  induction lots generalizing q with
  | nil => simp [fifoWalk]
  | cons lot rest ih =>
      have hsum : 0 ≤ (rest.map Lot.quantity_remaining).sum :=
        List.sum_nonneg (by
          intro x hx
          obtain ⟨l, hl, rfl⟩ := List.mem_map.1 hx
          exact h l (List.mem_cons_of_mem _ hl))
      have hlot : 0 ≤ lot.quantity_remaining := h lot (List.mem_cons_self _ _)
      by_cases hq : q ≤ 0
      · simp only [fifoWalk, if_pos hq, List.map_cons, List.sum_cons]
        omega
      · simp only [fifoWalk, if_neg hq, List.map_cons, List.sum_cons]
        rw [ih _ (fun l hl => h l (List.mem_cons_of_mem _ hl))]
        omega

theorem fifoWalk_rem_nonneg (lots : List Lot) (q : Int)
    (h : ∀ l ∈ lots, 0 ≤ l.quantity_remaining) (hq : 0 ≤ q) :
    0 ≤ (fifoWalk lots q).2.2 := by
  induction lots generalizing q with
  | nil => simpa [fifoWalk] using hq
  | cons lot rest ih =>
      have hlot : 0 ≤ lot.quantity_remaining := h lot (List.mem_cons_self _ _)
      by_cases hq0 : q ≤ 0
      · simpa [fifoWalk, hq0] using hq
      · simp only [fifoWalk, if_neg hq0]
        exact ih _ (fun l hl => h l (List.mem_cons_of_mem _ hl)) (by omega)

theorem fifoWalk_plan_sum (lots : List Lot) (q : Int) :
    ((fifoWalk lots q).2.1.map LotConsumption.quantity_consumed).sum =
      q - (fifoWalk lots q).2.2 := by
  induction lots generalizing q with
  | nil => simp [fifoWalk]
  | cons lot rest ih =>
      by_cases hq : q ≤ 0
      · simp [fifoWalk, hq]
      · simp only [fifoWalk, if_neg hq, List.map_cons, List.sum_cons]
        rw [ih]
        ring

theorem fifoWalk_cost_eq (lots : List Lot) (q : Int) :
    (fifoWalk lots q).1 =
      ((fifoWalk lots q).2.1.map
        (fun e => (e.quantity_consumed : ℚ) * e.cost_per_unit)).sum := by
  induction lots generalizing q with
  | nil => simp [fifoWalk]
  | cons lot rest ih =>
      by_cases hq : q ≤ 0
      · simp [fifoWalk, hq]
      · simp only [fifoWalk, if_neg hq, List.map_cons, List.sum_cons]
        rw [ih]

/-- C3. The FIFO cost quote walks the product's positive-remainder lots in
FIFO order, greedily consuming `min remaining_needed quantity_remaining`
from each: it returns the `none` sentinel exactly when the total available
across the lots is less than the request; a successful quote's plan
consumes exactly the requested quantity and its total cost is the sum of
`quantityConsumed * unitCost` over the plan; and on the lots
(qty 5, cost 10, day 1), (qty 3, cost 12, day 2) a request of 7 yields
total cost 74, consuming 5 from the first lot and 2 from the second
(a request of 9 yields the sentinel). The quote is a pure read of the
store: no lot is mutated. -/
theorem get_fifo_cost_spec (st : DBState) (product_id : Nat) (quantity_needed : Int)
    (hq : 0 ≤ quantity_needed) :
    (get_fifo_cost st product_id quantity_needed = none ↔
       ((get_inventory_lots st product_id).map Lot.quantity_remaining).sum < quantity_needed) ∧
    (∀ total_cost plan,
       get_fifo_cost st product_id quantity_needed = some (total_cost, plan) →
         (plan.map LotConsumption.quantity_consumed).sum = quantity_needed ∧
         total_cost =
           (plan.map (fun e => (e.quantity_consumed : ℚ) * e.cost_per_unit)).sum) ∧
    get_fifo_cost fifoExampleState 1 7 = some (74, [⟨1, 5, 10, 50⟩, ⟨2, 2, 12, 24⟩]) ∧
    get_fifo_cost fifoExampleState 1 9 = none := by
  have hpos : ∀ l ∈ get_inventory_lots st product_id, 0 ≤ l.quantity_remaining :=
    fun l hl => le_of_lt (get_inventory_lots_pos st product_id l hl)
  refine ⟨?_, ?_, ?_, ?_⟩
  · unfold get_fifo_cost
    rw [← fifoWalk_rem_pos_iff _ _ hpos]
    by_cases h : 0 < (fifoWalk (get_inventory_lots st product_id) quantity_needed).2.2
    · simp [h]
    · simp [h]
  · intro total_cost plan hsome
    unfold get_fifo_cost at hsome
    by_cases h : 0 < (fifoWalk (get_inventory_lots st product_id) quantity_needed).2.2
    · simp [h] at hsome
    · simp only [if_neg h, Option.some.injEq, Prod.mk.injEq] at hsome
      obtain ⟨hc, hp⟩ := hsome
      have hz : (fifoWalk (get_inventory_lots st product_id) quantity_needed).2.2 = 0 := by
        have := fifoWalk_rem_nonneg (get_inventory_lots st product_id) quantity_needed hpos hq
        omega
      constructor
      · rw [← hp, fifoWalk_plan_sum, hz, sub_zero]
      · rw [← hc, ← hp, fifoWalk_cost_eq]
  · norm_num +decide [get_fifo_cost, get_inventory_lots, fifoExampleState, emptyState,
      fifoWalk, sortLotsByDate, insertByDate, List.filter, LotConsumption.mk.injEq]
  · norm_num +decide [get_fifo_cost, get_inventory_lots, fifoExampleState, emptyState,
      fifoWalk, sortLotsByDate, insertByDate, List.filter]

/-- Witness for C3 at the concrete example store: requesting 7 of product
1 yields cost 74 with the plan (5 from lot 1, 2 from lot 2), and the
plan's consumed quantities sum to the request. -/
theorem get_fifo_cost_spec_witness :
    get_fifo_cost fifoExampleState 1 7 = some (74, [⟨1, 5, 10, 50⟩, ⟨2, 2, 12, 24⟩]) ∧
    (([⟨1, 5, 10, 50⟩, ⟨2, 2, 12, 24⟩] :
        List LotConsumption).map LotConsumption.quantity_consumed).sum = 7 := by
  refine ⟨(get_fifo_cost_spec fifoExampleState 1 7 (by norm_num)).2.2.1, ?_⟩
  exact ((get_fifo_cost_spec fifoExampleState 1 7 (by norm_num)).2.1 74 _
    (get_fifo_cost_spec fifoExampleState 1 7 (by norm_num)).2.2.1).1

theorem insertByDate_pairwise (a : Lot) (l : List Lot)
    (hl : l.Pairwise fun x y => x.date_acquired < y.date_acquired ∨
      (x.date_acquired = y.date_acquired ∧ x.id < y.id))
    (ha : ∀ b ∈ l, a.id < b.id) :
    (insertByDate a l).Pairwise fun x y => x.date_acquired < y.date_acquired ∨
      (x.date_acquired = y.date_acquired ∧ x.id < y.id) := by
  induction l with
  | nil => simp [insertByDate]
  | cons b t ih =>
      rw [List.pairwise_cons] at hl
      obtain ⟨hb, ht⟩ := hl
      by_cases h : a.date_acquired ≤ b.date_acquired
      · simp only [insertByDate, if_pos h]
        refine List.Pairwise.cons ?_ (List.Pairwise.cons hb ht)
        intro c hc
        rcases List.mem_cons.1 hc with rfl | hct
        · have := ha c (List.mem_cons_self _ _)
          omega
        · have hbc := hb c hct
          have hac := ha c (List.mem_cons_of_mem _ hct)
          omega
      · simp only [insertByDate, if_neg h]
        refine List.Pairwise.cons ?_
          (ih ht (fun c hc => ha c (List.mem_cons_of_mem _ hc)))
        intro c hc
        rcases List.mem_cons.1 ((insertByDate_perm a t).mem_iff.1 hc) with rfl | hct
        · omega
        · exact hb c hct

theorem sortLotsByDate_pairwise (l : List Lot)
    (h : l.Pairwise fun x y => x.id < y.id) :
    (sortLotsByDate l).Pairwise fun x y => x.date_acquired < y.date_acquired ∨
      (x.date_acquired = y.date_acquired ∧ x.id < y.id) := by
  induction l with
  | nil => simp [sortLotsByDate]
  | cons a t ih =>
      rw [List.pairwise_cons] at h
      obtain ⟨ha, ht⟩ := h
      exact insertByDate_pairwise a _ (ih ht)
        (fun b hb => ha b ((mem_sortLotsByDate b t).1 hb))

/-- C9. Listing a product's lots returns exactly the lots of that product
with positive quantity remaining (a permutation of the row filter), and —
because the insertion-order table is sorted stably by acquisition date —
the result is ordered by date ascending with ties broken by lower id
first. The hypothesis states the rowid invariant of the append-only
`inventory_lots` table: rows sit in strictly increasing id order. -/
theorem get_inventory_lots_spec (st : DBState) (product_id : Nat)
    (hids : st.lots.Pairwise fun x y => x.id < y.id) :
    (get_inventory_lots st product_id).Perm
      (st.lots.filter (fun l =>
        l.product_id == product_id && decide (0 < l.quantity_remaining))) ∧
    (get_inventory_lots st product_id).Pairwise
      (fun x y => x.date_acquired < y.date_acquired ∨
        (x.date_acquired = y.date_acquired ∧ x.id < y.id)) := by
  constructor
  · exact sortLotsByDate_perm _
  · exact sortLotsByDate_pairwise _ (hids.filter _)

/-- Witness for C9 at a concrete store with an equal-date tie: the active
lots of product 1 are listed as a permutation of the filter, in date order
with the lower id first on the tie. -/
theorem get_inventory_lots_spec_witness :
    (get_inventory_lots witnessLotsState 1).Perm
      (witnessLotsState.lots.filter (fun l =>
        l.product_id == 1 && decide (0 < l.quantity_remaining))) ∧
    (get_inventory_lots witnessLotsState 1).Pairwise
      (fun x y => x.date_acquired < y.date_acquired ∨
        (x.date_acquired = y.date_acquired ∧ x.id < y.id)) :=
  get_inventory_lots_spec witnessLotsState 1 (by decide)

theorem consume_inventory_lot_lots_eq (st : DBState) (lot_id : Nat) (q : Int) (lot : Lot)
    (hfind : st.lots.find? (fun l => l.id == lot_id) = some lot) :
    (consume_inventory_lot st lot_id q).1.lots =
      st.lots.map (fun l =>
        if l.id = lot_id ∧ q ≤ l.quantity_remaining then
          { l with quantity_remaining := l.quantity_remaining - q }
        else l) := by
  unfold consume_inventory_lot
  rw [hfind]
  by_cases h : st.lots.any (fun l => l.id == lot_id && decide (q ≤ l.quantity_remaining))
  · simp [h]
  · simp [h]

/-- C4. Committing consumption against a lot: when the lot's remaining
quantity is at least the consumed quantity, the lot's
`quantity_remaining` and the owning product's on-hand quantity each drop
by exactly that quantity (all other rows untouched); when the consumption
would drive the remaining quantity negative, the call is rejected with no
lot or product mutation; and consequently the invariant
`0 ≤ quantity_remaining ≤ quantity_purchased` is preserved. The
hypotheses fix the consumption quantity as a (non-negative) quantity and
state the primary-key uniqueness of lot ids. -/
theorem consume_inventory_lot_spec (st : DBState) (lot_id : Nat) (q : Int) (lot : Lot)
    (hfind : st.lots.find? (fun l => l.id == lot_id) = some lot)
    (hq : 0 ≤ q)
    (hids : (st.lots.map Lot.id).Nodup) :
    (q ≤ lot.quantity_remaining →
       (consume_inventory_lot st lot_id q).1.lots =
         st.lots.map (fun l =>
           if l.id = lot_id then
             { l with quantity_remaining := l.quantity_remaining - q }
           else l) ∧
       (consume_inventory_lot st lot_id q).1.products =
         st.products.map (fun p =>
           if p.id = lot.product_id then { p with quantity := p.quantity - q } else p)) ∧
    (lot.quantity_remaining < q →
       (consume_inventory_lot st lot_id q).1 = st ∧
       (consume_inventory_lot st lot_id q).2 = false) ∧
    ((∀ l ∈ st.lots, 0 ≤ l.quantity_remaining ∧
        l.quantity_remaining ≤ l.quantity_purchased) →
       ∀ l ∈ (consume_inventory_lot st lot_id q).1.lots,
         0 ≤ l.quantity_remaining ∧ l.quantity_remaining ≤ l.quantity_purchased) := by
  have hmem : lot ∈ st.lots := List.mem_of_find?_eq_some hfind
  have hid : lot.id = lot_id := by
    have := List.find?_some hfind
    simpa using this
  have huniq : ∀ l ∈ st.lots, l.id = lot_id → l = lot := by
    intro l hl hlid
    exact List.inj_on_of_nodup_map hids hl hmem (by rw [hlid, hid])
  refine ⟨?_, ?_, ?_⟩
  · intro hle
    have hany : st.lots.any
        (fun l => l.id == lot_id && decide (q ≤ l.quantity_remaining)) = true :=
      List.any_eq_true.2 ⟨lot, hmem, by simp [hid, hle]⟩
    constructor
    · rw [consume_inventory_lot_lots_eq st lot_id q lot hfind]
      refine List.map_congr_left ?_
      intro l hl
      by_cases hcase : l.id = lot_id
      · have hle' : q ≤ l.quantity_remaining := by
          rw [huniq l hl hcase]
          exact hle
        rw [if_pos ⟨hcase, hle'⟩, if_pos hcase]
      · simp [hcase]
    · unfold consume_inventory_lot
      rw [hfind]
      simp only [hany, if_true]
  · intro hlt
    have hany : st.lots.any
        (fun l => l.id == lot_id && decide (q ≤ l.quantity_remaining)) = false := by
      rw [List.any_eq_false]
      intro l hl
      by_cases hcase : l.id = lot_id
      · rw [huniq l hl hcase]
        simp only [Bool.and_eq_true, beq_iff_eq, decide_eq_true_eq, not_and]
        intro _
        omega
      · simp [hcase]
    have hlots : (consume_inventory_lot st lot_id q).1.lots = st.lots := by
      rw [consume_inventory_lot_lots_eq st lot_id q lot hfind]
      have : ∀ l ∈ st.lots,
          (if l.id = lot_id ∧ q ≤ l.quantity_remaining then
            { l with quantity_remaining := l.quantity_remaining - q }
          else l) = l := by
        intro l hl
        rw [if_neg]
        rintro ⟨h1, h2⟩
        rw [huniq l hl h1] at h2
        omega
      rw [List.map_congr_left this]
      simp
    constructor
    · unfold consume_inventory_lot
      rw [hfind]
      simp only [hany, Bool.false_eq_true, if_false]
      unfold consume_inventory_lot at hlots
      rw [hfind] at hlots
      simp only [hany, Bool.false_eq_true, if_false] at hlots
      exact congrArg (fun x => { st with lots := x }) hlots
    · unfold consume_inventory_lot
      rw [hfind]
      simp [hany]
  · intro hinv l hl
    rw [consume_inventory_lot_lots_eq st lot_id q lot hfind] at hl
    obtain ⟨l0, hl0, rfl⟩ := List.mem_map.1 hl
    by_cases hcase : l0.id = lot_id ∧ q ≤ l0.quantity_remaining
    · have h0 := hinv l0 hl0
      rw [if_pos hcase]
      dsimp only
      omega
    · rw [if_neg hcase]
      exact hinv l0 hl0

/-- Witness for C4 at a concrete store: consuming 2 of the 3 remaining
units of lot 1 rewrites the lot to 1 remaining and the product to 1 on
hand, and the invariant is preserved there. -/
theorem consume_inventory_lot_spec_witness :
    ((consume_inventory_lot witnessConsumeState 1 2).1.lots =
       witnessConsumeState.lots.map (fun l =>
         if l.id = 1 then
           { l with quantity_remaining := l.quantity_remaining - 2 }
         else l) ∧
     (consume_inventory_lot witnessConsumeState 1 2).1.products =
       witnessConsumeState.products.map (fun p =>
         if p.id = 1 then { p with quantity := p.quantity - 2 } else p)) ∧
    (∀ l ∈ (consume_inventory_lot witnessConsumeState 1 2).1.lots,
       0 ≤ l.quantity_remaining ∧ l.quantity_remaining ≤ l.quantity_purchased) := by
  have h := consume_inventory_lot_spec witnessConsumeState 1 2
    ⟨1, 1, none, 5, 3, 10, 1⟩ (by decide) (by decide) (by decide)
  exact ⟨h.1 (by decide), h.2.2 (by decide)⟩

/-- C2. Posting journal lines whose total debits and credits differ by
more than 0.01 fails with the validation error before anything is
persisted; posting a balanced list persists the header with the computed
totals and every line, and folds each line's balance delta into the
chart of accounts (`update_account_balance` per line, in order). -/
theorem create_journal_entry_spec (st : DBState)
    (journal_type reference_no description : String) (entries : List EntryLine) :
    (|(entries.map EntryLine.debit).sum - (entries.map EntryLine.credit).sum| > 1 / 100 →
       create_journal_entry st journal_type reference_no description entries =
         Except.error "Journal entry not balanced") ∧
    (|(entries.map EntryLine.debit).sum - (entries.map EntryLine.credit).sum| ≤ 1 / 100 →
       create_journal_entry st journal_type reference_no description entries =
         Except.ok
           ({ st with
               journal_entries := st.journal_entries ++
                 [⟨st.next_journal_id, journal_type, reference_no, description,
                   (entries.map EntryLine.debit).sum, (entries.map EntryLine.credit).sum,
                   entries⟩]
               next_journal_id := st.next_journal_id + 1
               accounts := entries.foldl
                 (fun accs e => update_account_balance accs e.account e.debit e.credit)
                 st.accounts },
            st.next_journal_id)) := by
  constructor
  · intro h
    unfold create_journal_entry
    rw [if_pos h]
  · intro h
    unfold create_journal_entry
    rw [if_neg (not_lt.2 h)]

/-- Witness for C2: a one-sided entry of 5 is rejected as unbalanced on
the fresh store, and the balanced Dr Cash 5 / Cr Sales Revenue 5 entry
posts successfully. -/
theorem create_journal_entry_spec_witness :
    create_journal_entry emptyState "general" "R-1" "unbalanced"
        [⟨"Cash", 5, 0, ""⟩] = Except.error "Journal entry not balanced" ∧
    (∃ x, create_journal_entry emptyState "sales" "R-2" "balanced"
        [⟨"Cash", 5, 0, ""⟩, ⟨"Sales Revenue", 0, 5, ""⟩] = Except.ok x) := by
  constructor
  · exact (create_journal_entry_spec emptyState "general" "R-1" "unbalanced" _).1
      (by norm_num [List.sum_cons, List.sum_nil])
  · exact ⟨_, (create_journal_entry_spec emptyState "sales" "R-2" "balanced" _).2
      (by norm_num [List.sum_cons, List.sum_nil])⟩

/-- C5. Applying a line's delta to a known account adds
`debit - credit` to the stored balance when the account type is asset or
expense, and `credit - debit` otherwise (liability, equity, revenue);
posting Dr Cash 100 / Cr Sales Revenue 100 through the journal engine
over the default chart leaves both the Cash balance and the Sales Revenue
balance at exactly +100. -/
theorem update_account_balance_spec (accounts : List Account) (account_name : String)
    (debit_amount credit_amount : ℚ) (acct : Account)
    (h : lookupAccount accounts account_name = some acct) :
    update_account_balance accounts account_name debit_amount credit_amount =
      accounts.map (fun a =>
        if a.account_name = account_name then
          { a with balance := a.balance +
              (if acct.account_type = "asset" ∨ acct.account_type = "expense" then
                debit_amount - credit_amount
              else credit_amount - debit_amount) }
        else a) ∧
    get_account_balance debitCreditExampleState "Cash" = 100 ∧
    get_account_balance debitCreditExampleState "Sales Revenue" = 100 := by
  refine ⟨?_, ?_, ?_⟩
  · unfold update_account_balance
    rw [h]
  · norm_num +decide [debitCreditExampleState, commitOr, create_journal_entry, emptyState,
      get_account_balance, lookupAccount, update_account_balance, defaultAccounts,
      List.find?, List.foldl]
  · norm_num +decide [debitCreditExampleState, commitOr, create_journal_entry, emptyState,
      get_account_balance, lookupAccount, update_account_balance, defaultAccounts,
      List.find?, List.foldl]

/-- Witness for C5 at the Cash account of the default chart: both sides
of the Dr Cash 100 / Cr Sales Revenue 100 posting land at +100. -/
theorem update_account_balance_spec_witness :
    get_account_balance debitCreditExampleState "Cash" = 100 ∧
    get_account_balance debitCreditExampleState "Sales Revenue" = 100 :=
  ⟨(update_account_balance_spec defaultAccounts "Cash" 100 0
      ⟨"1001", "Cash", "asset", 0⟩ (by decide)).2.1,
   (update_account_balance_spec defaultAccounts "Cash" 100 0
      ⟨"1001", "Cash", "asset", 0⟩ (by decide)).2.2⟩

/-- C6. A balanced entry carrying a line against an account missing from
the chart still posts: the caller receives success, the header and every
line (including the unknown-account line) are persisted, and the balance
update for that line is a warned no-op on the chart. -/
theorem create_journal_entry_unknown_account_spec (st : DBState)
    (journal_type reference_no description : String) (entries : List EntryLine)
    (e : EntryLine) (_he : e ∈ entries)
    (hunknown : lookupAccount st.accounts e.account = none)
    (hbal : |(entries.map EntryLine.debit).sum - (entries.map EntryLine.credit).sum| ≤ 1 / 100) :
    (∃ st', create_journal_entry st journal_type reference_no description entries =
        Except.ok (st', st.next_journal_id) ∧
      st'.journal_entries = st.journal_entries ++
        [⟨st.next_journal_id, journal_type, reference_no, description,
          (entries.map EntryLine.debit).sum, (entries.map EntryLine.credit).sum,
          entries⟩]) ∧
    update_account_balance st.accounts e.account e.debit e.credit = st.accounts := by
  constructor
  · refine ⟨{ st with
        journal_entries := st.journal_entries ++
          [⟨st.next_journal_id, journal_type, reference_no, description,
            (entries.map EntryLine.debit).sum, (entries.map EntryLine.credit).sum, entries⟩]
        next_journal_id := st.next_journal_id + 1
        accounts := entries.foldl
          (fun accs e => update_account_balance accs e.account e.debit e.credit)
          st.accounts }, ?_, rfl⟩
    unfold create_journal_entry
    rw [if_neg (not_lt.2 hbal)]
  · unfold update_account_balance
    rw [hunknown]

/-- Witness for C6: a balanced entry with a line against the unregistered
account "Ghost" posts on the fresh store, and the Ghost line's balance
update leaves the chart untouched. -/
theorem create_journal_entry_unknown_account_spec_witness :
    (∃ st', create_journal_entry emptyState "general" "R-3" "ghost entry"
        [⟨"Ghost", 5, 0, ""⟩, ⟨"Cash", 0, 5, ""⟩] =
          Except.ok (st', emptyState.next_journal_id) ∧
      st'.journal_entries = emptyState.journal_entries ++
        [⟨emptyState.next_journal_id, "general", "R-3", "ghost entry",
          (([⟨"Ghost", 5, 0, ""⟩, ⟨"Cash", 0, 5, ""⟩] :
             List EntryLine).map EntryLine.debit).sum,
          (([⟨"Ghost", 5, 0, ""⟩, ⟨"Cash", 0, 5, ""⟩] :
             List EntryLine).map EntryLine.credit).sum,
          [⟨"Ghost", 5, 0, ""⟩, ⟨"Cash", 0, 5, ""⟩]⟩]) ∧
    update_account_balance emptyState.accounts "Ghost" 5 0 = emptyState.accounts :=
  create_journal_entry_unknown_account_spec emptyState "general" "R-3" "ghost entry"
    [⟨"Ghost", 5, 0, ""⟩, ⟨"Cash", 0, 5, ""⟩] ⟨"Ghost", 5, 0, ""⟩
    (by simp) (by decide) (by norm_num [List.sum_cons, List.sum_nil])

/-- C1. The checkout flow quotes FIFO cost for every item before any
write: when any item's quote on the pre-sale store reports insufficient
stock, the whole sale is aborted — no lot's `quantity_remaining` changes
and no journal entry is posted. -/
theorem checkout_sale_insufficient_spec (st : DBState) (items : List SaleInput)
    (payment_type reference_no : String)
    (h : ∃ i ∈ items, get_fifo_cost st i.product_id i.quantity = none) :
    (checkout_sale st items payment_type reference_no).lots = st.lots ∧
    (checkout_sale st items payment_type reference_no).journal_entries =
      st.journal_entries := by
  have hany : (items.any fun i => (get_fifo_cost st i.product_id i.quantity).isNone) = true := by
    rw [List.any_eq_true]
    obtain ⟨i, hi, hnone⟩ := h
    exact ⟨i, hi, by rw [hnone]; rfl⟩
  have hcs : create_sale st items none payment_type 0 0 reference_no = none := by
    simp [create_sale, hany]
  unfold checkout_sale
  rw [hcs]
  exact ⟨rfl, rfl⟩

/-- Witness for C1: on the example store with 8 units of product 1
available, a two-item cart whose second item requests 9 units leaves the
lots and the journal exactly as they were. -/
theorem checkout_sale_insufficient_spec_witness :
    (checkout_sale fifoExampleState [⟨1, 2, 15⟩, ⟨1, 9, 15⟩] "cash" "REF-W").lots =
      fifoExampleState.lots ∧
    (checkout_sale fifoExampleState [⟨1, 2, 15⟩, ⟨1, 9, 15⟩] "cash" "REF-W").journal_entries =
      fifoExampleState.journal_entries :=
  checkout_sale_insufficient_spec fifoExampleState [⟨1, 2, 15⟩, ⟨1, 9, 15⟩] "cash" "REF-W"
    ⟨⟨1, 9, 15⟩, by simp, by
      norm_num +decide [get_fifo_cost, get_inventory_lots, fifoExampleState, emptyState,
        fifoWalk, sortLotsByDate, insertByDate, List.filter]⟩

/-- C7. End-to-end scenario over the initialized chart of accounts
(`Database.create_tables`; the engine leaves chart setup to it): starting
from one product (cost 10, price 15, zero stock), recording beginning
inventory of 20 units at 10 leaves Inventory and Owner Capital at +200;
then selling 5 units for cash at 15 each leaves Cash at 75, Sales Revenue
at 75, Cost of Goods Sold at 50 and Inventory at 150, with the trial
balance still balanced. -/
theorem end_to_end_scenario_spec :
    get_account_balance scenarioStBeg "Inventory" = 200 ∧
    get_account_balance scenarioStBeg "Owner Capital" = 200 ∧
    get_account_balance scenarioStSold "Cash" = 75 ∧
    get_account_balance scenarioStSold "Sales Revenue" = 75 ∧
    get_account_balance scenarioStSold "Cost of Goods Sold" = 50 ∧
    get_account_balance scenarioStSold "Inventory" = 150 ∧
    validate_trial_balance scenarioStSold = true := by
  norm_num +decide [get_account_balance, lookupAccount, scenarioStBeg, scenarioStSold,
    scenarioStLot, scenarioSt0, emptyState, commitOr, process_inventory_purchase,
    create_journal_entry, checkout_sale, create_sale, process_sales_transaction,
    processSaleItems, get_product_by_id, get_fifo_cost, get_inventory_lots, sortLotsByDate,
    insertByDate, fifoWalk, consume_inventory_lot, add_inventory_lot, add_cash_in,
    cashInTypes, update_account_balance, validate_trial_balance, all_journal_lines,
    defaultAccounts, List.filter, List.find?, List.foldl, List.any]

theorem update_customer_balance_sales (st : DBState) (customer_id : Option Nat) (amount : ℚ) :
    (update_customer_balance st customer_id amount).sales = st.sales := by
  cases customer_id <;> rfl

theorem record_bad_debt_write_off_written (st : DBState) (customer_id : Option Nat)
    (sale_id : Nat) (amount : ℚ) (description : String) (sale : Sale)
    (hfind : st.sales.find? (fun s => s.id == sale_id && s.payment_type == "credit" &&
      s.status == "completed") = some sale)
    (h0 : 0 < amount) (hle : amount ≤ sale.total_amount) :
    ∃ st', record_bad_debt_write_off st customer_id sale_id amount description =
        Except.ok st' ∧
      st'.sales = st.sales.map (fun s =>
        if s.id = sale_id then { s with status := "written_off" } else s) := by
  unfold record_bad_debt_write_off
  rw [hfind]
  dsimp only
  rw [if_neg (not_lt.2 hle), if_neg (not_le.2 h0)]
  refine ⟨_, rfl, ?_⟩
  rw [update_customer_balance_sales]

/-- C8. A bad-debt write-off succeeds exactly when the target sale is on
file as a completed credit sale and the amount is positive and at most
the sale amount: any violation raises a validation error (rolling back,
so the caller keeps the pre-call store); on success every copy of the
sale's row carries the terminal status `written_off`, the sale no longer
appears in the outstanding credit-sale listing, and a second write-off
attempt against the same sale fails validation. -/
theorem record_bad_debt_write_off_spec (st : DBState) (customer_id : Option Nat)
    (sale_id : Nat) (amount : ℚ) (description : String) :
    (st.sales.find? (fun s => s.id == sale_id && s.payment_type == "credit" &&
        s.status == "completed") = none →
       ∃ msg, record_bad_debt_write_off st customer_id sale_id amount description =
         Except.error msg) ∧
    (∀ sale, st.sales.find? (fun s => s.id == sale_id && s.payment_type == "credit" &&
        s.status == "completed") = some sale →
       (sale.total_amount < amount ∨ amount ≤ 0) →
       ∃ msg, record_bad_debt_write_off st customer_id sale_id amount description =
         Except.error msg) ∧
    (∀ sale, st.sales.find? (fun s => s.id == sale_id && s.payment_type == "credit" &&
        s.status == "completed") = some sale →
       0 < amount → amount ≤ sale.total_amount →
       ∃ st', record_bad_debt_write_off st customer_id sale_id amount description =
           Except.ok st' ∧
         (∀ s ∈ st'.sales, s.id = sale_id → s.status = "written_off") ∧
         (∀ s ∈ get_credit_sales st', s.id ≠ sale_id) ∧
         (∀ customer_id2 amount2 description2, ∃ msg,
            record_bad_debt_write_off st' customer_id2 sale_id amount2 description2 =
              Except.error msg)) := by
  refine ⟨?_, ?_, ?_⟩
  · intro hnone
    unfold record_bad_debt_write_off
    rw [hnone]
    exact ⟨_, rfl⟩
  · intro sale hfind hbad
    unfold record_bad_debt_write_off
    rw [hfind]
    dsimp only
    by_cases hgt : sale.total_amount < amount
    · rw [if_pos hgt]
      exact ⟨_, rfl⟩
    · rw [if_neg hgt]
      have hle0 : amount ≤ 0 := hbad.resolve_left hgt
      rw [if_pos hle0]
      exact ⟨_, rfl⟩
  · intro sale hfind h0 hle
    obtain ⟨st', hok, hsales⟩ :=
      record_bad_debt_write_off_written st customer_id sale_id amount description sale
        hfind h0 hle
    have hwritten : ∀ s ∈ st'.sales, s.id = sale_id → s.status = "written_off" := by
      intro s hs hsid
      rw [hsales] at hs
      obtain ⟨s0, hs0, rfl⟩ := List.mem_map.1 hs
      by_cases hcase : s0.id = sale_id
      · rw [if_pos hcase]
      · rw [if_neg hcase] at hsid ⊢
        exact absurd hsid hcase
    refine ⟨st', hok, hwritten, ?_, ?_⟩
    · intro s hs hsid
      have hmem : s ∈ st'.sales := List.mem_filter.1 hs |>.1
      have hpred := List.mem_filter.1 hs |>.2
      have hstat : s.status = "written_off" := hwritten s hmem hsid
      simp only [Bool.and_eq_true, beq_iff_eq] at hpred
      rw [hstat] at hpred
      exact absurd hpred.1.2 (by decide)
    · intro customer_id2 amount2 description2
      have hnone2 : st'.sales.find? (fun s => s.id == sale_id &&
          s.payment_type == "credit" && s.status == "completed") = none := by
        rw [List.find?_eq_none]
        intro s hs
        simp only [Bool.and_eq_true, beq_iff_eq, not_and]
        intro h1
        rw [hwritten s hs h1.1]
        decide
      unfold record_bad_debt_write_off
      rw [hnone2]
      exact ⟨_, rfl⟩

/-- Witness for C8 at a concrete store: writing off 40 of the completed
credit sale 7 succeeds, marks the sale `written_off`, removes it from the
outstanding listing, and a repeat write-off fails validation. -/
theorem record_bad_debt_write_off_spec_witness :
    ∃ st', record_bad_debt_write_off witnessSaleState (some 1) 7 40 "" =
        Except.ok st' ∧
      (∀ s ∈ st'.sales, s.id = 7 → s.status = "written_off") ∧
      (∀ s ∈ get_credit_sales st', s.id ≠ 7) ∧
      (∀ customer_id2 amount2 description2, ∃ msg,
         record_bad_debt_write_off st' customer_id2 7 amount2 description2 =
           Except.error msg) :=
  (record_bad_debt_write_off_spec witnessSaleState (some 1) 7 40 "").2.2
    ⟨7, some 1, 100, 0, 0, "credit", "completed", "S-7"⟩ (by decide)
    (by norm_num) (by norm_num)

theorem create_journal_entry_ok (st : DBState)
    (journal_type reference_no description : String) (entries : List EntryLine)
    (h : |(entries.map EntryLine.debit).sum - (entries.map EntryLine.credit).sum| ≤ 1 / 100) :
    create_journal_entry st journal_type reference_no description entries =
      Except.ok
        ({ st with
            journal_entries := st.journal_entries ++
              [⟨st.next_journal_id, journal_type, reference_no, description,
                (entries.map EntryLine.debit).sum, (entries.map EntryLine.credit).sum,
                entries⟩]
            next_journal_id := st.next_journal_id + 1
            accounts := entries.foldl
              (fun accs e => update_account_balance accs e.account e.debit e.credit)
              st.accounts },
         st.next_journal_id) := by
  unfold create_journal_entry
  rw [if_neg (not_lt.2 h)]

/-- C10. A sales return leaves the inventory lot ledger completely
unchanged — no lot is created and no lot's `quantity_remaining` moves —
even though the product's on-hand quantity is incremented by the returned
quantity and a four-line journal entry is posted; consequently every lot
listing and every FIFO cost quote is unchanged by the return. -/
theorem add_sales_return_spec (st : DBState) (sale_id product_id : Nat) (quantity : Int)
    (unit_price : ℚ) (reason : String) (product : Product)
    (hp : get_product_by_id st product_id = some product) :
    ∃ st' rid,
      add_sales_return st sale_id product_id quantity unit_price reason =
        Except.ok (st', rid) ∧
      st'.lots = st.lots ∧
      st'.products = st.products.map (fun p =>
        if p.id = product_id then { p with quantity := p.quantity + quantity } else p) ∧
      (∃ entry, st'.journal_entries = st.journal_entries ++ [entry] ∧
        entry.lines.length = 4) ∧
      (∀ product_id2, get_inventory_lots st' product_id2 = get_inventory_lots st product_id2) ∧
      (∀ product_id2 quantity2,
        get_fifo_cost st' product_id2 quantity2 = get_fifo_cost st product_id2 quantity2) := by
  have hbal : |(([⟨"Sales Returns", (quantity : ℚ) * unit_price, 0, "Sales Return - " ++ reason⟩,
        ⟨"Inventory", (quantity : ℚ) * product.cost_price, 0, "Inventory restored - " ++ reason⟩,
        ⟨"Cost of Goods Sold", 0, (quantity : ℚ) * product.cost_price, "COGS reversal - " ++ reason⟩,
        ⟨"Cash", 0, (quantity : ℚ) * unit_price, "Cash refund - " ++ reason⟩] :
          List EntryLine).map EntryLine.debit).sum -
      (([⟨"Sales Returns", (quantity : ℚ) * unit_price, 0, "Sales Return - " ++ reason⟩,
        ⟨"Inventory", (quantity : ℚ) * product.cost_price, 0, "Inventory restored - " ++ reason⟩,
        ⟨"Cost of Goods Sold", 0, (quantity : ℚ) * product.cost_price, "COGS reversal - " ++ reason⟩,
        ⟨"Cash", 0, (quantity : ℚ) * unit_price, "Cash refund - " ++ reason⟩] :
          List EntryLine).map EntryLine.credit).sum| ≤ 1 / 100 := by
    simp only [List.map_cons, List.map_nil, List.sum_cons, List.sum_nil]
    have h0 : ∀ a b : ℚ, a + (b + (0 + (0 + 0))) - (0 + (0 + (b + (a + 0)))) = 0 := by
      intro a b
      ring
    rw [h0]
    norm_num
  unfold add_sales_return
  rw [hp]
  dsimp only
  rw [create_journal_entry_ok _ _ _ _ _ hbal]
  dsimp only
  refine ⟨_, st.next_return_id, rfl, rfl, rfl, ⟨_, rfl, rfl⟩, ?_, ?_⟩
  · intro product_id2
    rfl
  · intro product_id2 quantity2
    rfl

/-- Witness for C10 at the example store: returning 2 units of product 1
leaves both inventory lots untouched, bumps the product to 10 on hand,
and appends one four-line journal entry. -/
theorem add_sales_return_spec_witness :
    ∃ st' rid,
      add_sales_return fifoExampleState 3 1 2 15 "damaged" = Except.ok (st', rid) ∧
      st'.lots = fifoExampleState.lots ∧
      st'.products = fifoExampleState.products.map (fun p =>
        if p.id = 1 then { p with quantity := p.quantity + 2 } else p) ∧
      (∃ entry, st'.journal_entries = fifoExampleState.journal_entries ++ [entry] ∧
        entry.lines.length = 4) ∧
      (∀ product_id2, get_inventory_lots st' product_id2 =
        get_inventory_lots fifoExampleState product_id2) ∧
      (∀ product_id2 quantity2, get_fifo_cost st' product_id2 quantity2 =
        get_fifo_cost fifoExampleState product_id2 quantity2) :=
  add_sales_return_spec fifoExampleState 3 1 2 15 "damaged" ⟨1, "Widget", 10, 15, 8⟩
    (by decide)

end RSM
